import Mathlib

/-!
Verification development for the `my-tauri-app` native overlay / input-injection
core (`src/src-tauri/src/lib.rs`).  The Rust source is shallowly embedded:
pure computations become Lean functions, the process-wide overlay registry
becomes explicit state passing, and the native OS subsystem (window creation,
`SendInput` acceptance, display metrics) is a parameter of each operation.
-/

namespace MyTauriApp

/-! ## Virtual-key constants (values of the `windows` crate constants used by
`key_event` in lib.rs). -/

def VK_SHIFT : Nat := 0x10
def VK_CONTROL : Nat := 0x11
def VK_MENU : Nat := 0x12
def VK_RETURN : Nat := 0x0D
def VK_BACK : Nat := 0x08
def VK_TAB : Nat := 0x09
def VK_ESCAPE : Nat := 0x1B
def VK_SPACE : Nat := 0x20
def VK_LEFT : Nat := 0x25
def VK_UP : Nat := 0x26
def VK_RIGHT : Nat := 0x27
def VK_DOWN : Nat := 0x28
def VK_HOME : Nat := 0x24
def VK_END : Nat := 0x23
def VK_PRIOR : Nat := 0x21
def VK_NEXT : Nat := 0x22
def VK_INSERT : Nat := 0x2D
def VK_DELETE : Nat := 0x2E
def VK_NUMPAD0 : Nat := 0x60
def VK_NUMPAD1 : Nat := 0x61
def VK_NUMPAD2 : Nat := 0x62
def VK_NUMPAD3 : Nat := 0x63
def VK_NUMPAD4 : Nat := 0x64
def VK_NUMPAD5 : Nat := 0x65
def VK_NUMPAD6 : Nat := 0x66
def VK_NUMPAD7 : Nat := 0x67
def VK_NUMPAD8 : Nat := 0x68
def VK_NUMPAD9 : Nat := 0x69
def VK_MULTIPLY : Nat := 0x6A
def VK_ADD : Nat := 0x6B
def VK_SUBTRACT : Nat := 0x6D
def VK_DECIMAL : Nat := 0x6E
def VK_DIVIDE : Nat := 0x6F

/-! ## Data model for `key_event` (lib.rs lines 487-597, Windows path) -/

/-- Mirror of the Rust `struct Modifiers { alt, ctrl, shift, meta }`
(lib.rs line 488), field order as in the source. -/
structure Modifiers where
  alt : Bool
  ctrl : Bool
  shift : Bool
  meta : Bool
deriving DecidableEq, Repr

/-- One `INPUT_KEYBOARD` entry as built by the `push_key` closure in
`key_event` (lib.rs lines 561-565): virtual-key code, `KEYEVENTF_KEYUP`
flag, `KEYEVENTF_EXTENDEDKEY` flag.  `wScan`, `time`, `dwExtraInfo` are
constant zero in the source and omitted. -/
structure KeyInput where
  wVk : Nat
  keyup : Bool
  extended : Bool
deriving DecidableEq, Repr

/-- Mirror of the `push_key` closure: builds one keyboard `INPUT`. -/
def pushKey (vk : Nat) (up : Bool) (extended : Bool) : KeyInput :=
  ⟨vk, up, extended⟩

/-- Model of Rust `str::to_uppercase` as used on the single-character
fallback branch of `vk_from_keycode`.  `Char.toUpper` upcases ASCII
letters; the two non-ASCII code points whose full Unicode uppercase is a
single ASCII byte are mapped explicitly (U+0131 dotless i to I, U+017F
long s to S).  Every other divergence from full Unicode uppercasing
(e.g. multi-character or non-ASCII uppercase forms) leaves the UTF-8
byte length at 2 or more on both sides, so the fallback's resolved /
unresolved classification and the resolved virtual key agree with the
Rust source on every input. -/
def rustToUppercase (s : String) : String :=
  ⟨s.data.map (fun c =>
      if c = 'ı' then 'I'
      else if c = 'ſ' then 'S'
      else Char.toUpper c)⟩

/-- Mirror of `vk_from_keycode(key, code)` (lib.rs lines 505-558):
first match the physical `code` against the table, then fall back on the
symbolic `key` name; the final fallback upcases `key` and, when the
result is a single byte (`upper.len() == 1` in Rust is the UTF-8 byte
length), uses that character's code point as the virtual key (the Rust
`as u16` cast is `% 2^16`).  Returns `(virtual_key, is_extended)`;
`(0, false)` means unresolved. -/
def vk_from_keycode (key code : String) : Nat × Bool :=
  match code with
  | "ArrowLeft" => (VK_LEFT, true)
  | "ArrowRight" => (VK_RIGHT, true)
  | "ArrowUp" => (VK_UP, true)
  | "ArrowDown" => (VK_DOWN, true)
  | "Home" => (VK_HOME, true)
  | "End" => (VK_END, true)
  | "PageUp" => (VK_PRIOR, true)
  | "PageDown" => (VK_NEXT, true)
  | "Insert" => (VK_INSERT, true)
  | "Delete" => (VK_DELETE, true)
  | "Backspace" => (VK_BACK, false)
  | "Enter" => (VK_RETURN, false)
  | "NumpadEnter" => (VK_RETURN, false)
  | "Tab" => (VK_TAB, false)
  | "Escape" => (VK_ESCAPE, false)
  | "Space" => (VK_SPACE, false)
  | "Numpad0" => (VK_NUMPAD0, false)
  | "Numpad1" => (VK_NUMPAD1, false)
  | "Numpad2" => (VK_NUMPAD2, false)
  | "Numpad3" => (VK_NUMPAD3, false)
  | "Numpad4" => (VK_NUMPAD4, false)
  | "Numpad5" => (VK_NUMPAD5, false)
  | "Numpad6" => (VK_NUMPAD6, false)
  | "Numpad7" => (VK_NUMPAD7, false)
  | "Numpad8" => (VK_NUMPAD8, false)
  | "Numpad9" => (VK_NUMPAD9, false)
  | "NumpadAdd" => (VK_ADD, false)
  | "NumpadSubtract" => (VK_SUBTRACT, false)
  | "NumpadMultiply" => (VK_MULTIPLY, false)
  | "NumpadDivide" => (VK_DIVIDE, true)
  | "NumpadDecimal" => (VK_DECIMAL, false)
  | _ =>
    match key with
    | "Control" => (VK_CONTROL, true)
    | "Shift" => (VK_SHIFT, false)
    | "Alt" => (VK_MENU, true)
    | _ =>
      let upper := rustToUppercase key
      if upper.utf8ByteSize = 1 then
        (upper.front.toNat % 65536, false)
      else
        (0, false)

/-- The keyboard `INPUT` batch built by one `key_event` call
(lib.rs lines 559-577): on `action == "down"` push ctrl, shift, alt
down-events first; push the resolved key's event if it resolved
(`vk.0 != 0`); on `action == "up"` push alt, shift, ctrl up-events last. -/
def keyEventInputs (action key code : String) (mods : Modifiers) : List KeyInput :=
  let resolved := vk_from_keycode key code
  (if action == "down" then
     (if mods.ctrl then [pushKey VK_CONTROL false true] else []) ++
     (if mods.shift then [pushKey VK_SHIFT false false] else []) ++
     (if mods.alt then [pushKey VK_MENU false true] else [])
   else []) ++
  (if resolved.1 ≠ 0 then [pushKey resolved.1 (action == "up") resolved.2] else []) ++
  (if action == "up" then
     (if mods.alt then [pushKey VK_MENU true true] else []) ++
     (if mods.shift then [pushKey VK_SHIFT true false] else []) ++
     (if mods.ctrl then [pushKey VK_CONTROL true true] else [])
   else [])

/-- Command outcome at the boundary: success, an error string, or a
process panic (Rust `expect`/`unwrap`). -/
inductive Outcome where
  | ok
  | err (msg : String)
  | panicked (msg : String)
deriving DecidableEq, Repr

/-- `true` exactly on the `err` constructor. -/
def Outcome.isErr : Outcome → Bool
  | .err _ => true
  | _ => false

/-- Result of the `key_event` command (lib.rs lines 578-582, 596):
`SendInput` is only called when the batch is nonempty; `sent` models its
return value (events accepted); `sent == 0` yields the error. -/
def keyEventResult (action key code : String) (mods : Modifiers) (sent : Nat) : Outcome :=
  if keyEventInputs action key code mods ≠ [] ∧ sent = 0 then
    .err "SendInput key_event failed"
  else
    .ok

/-! ## Mouse commands (lib.rs lines 415-473, Windows path) -/

/-- Rust `f64::round`: round half away from zero, modelled over `ℚ`. -/
def roundAwayFromZero (q : ℚ) : ℤ :=
  if 0 ≤ q then ⌊q + 1 / 2⌋ else -⌊-q + 1 / 2⌋

/-- The `(nx, ny)` pair computed by `mouse_move` (lib.rs lines 427-428):
`nx = ((x / SM_CXSCREEN) * 65535.0).round()` and likewise for `ny`, with
the display dimensions `cx, cy` passed explicitly. -/
def mouseMoveNative (x y cx cy : ℤ) : ℤ × ℤ :=
  (roundAwayFromZero ((x : ℚ) / (cx : ℚ) * 65535),
   roundAwayFromZero ((y : ℚ) / (cy : ℚ) * 65535))

/-- Mouse-event flags appearing in `mouse_click` (lib.rs lines 450-461). -/
inductive MouseFlag where
  | leftDown
  | leftUp
  | rightDown
  | rightUp
deriving DecidableEq, Repr

/-- The `(down, up)` flag pair chosen by `mouse_click`'s match
(lib.rs lines 454-457): the literal arm `"right"`, and a catch-all arm
mapping everything else to the left button. -/
def mouseClickFlags (button : String) : MouseFlag × MouseFlag :=
  if button == "right" then (.rightDown, .rightUp) else (.leftDown, .leftUp)

/-- The `mouse_click` command (lib.rs lines 447-473): builds the
down/up `INPUT` pair from `mouseClickFlags` and submits it via
`SendInput`; `sent` models the number of events accepted, `sent == 0`
yields the error.  Returns the outcome and the submitted batch. -/
def mouseClick (button : String) (sent : Nat) : Outcome × List MouseFlag :=
  let flags := mouseClickFlags button
  (if sent = 0 then .err "SendInput failed" else .ok, [flags.1, flags.2])

/-! ## Overlay lifecycle (lib.rs lines 30-71, 184-231, 282-324, 368-410) -/

/-- The overlay manager's observable state: `registry` is the handle
vector guarded by the mutex (`overlays` on Windows, `ns_windows` on
macOS), and `destroyedNative` logs each handle on which the native
destruction routine (`DestroyWindow`) has been invoked. -/
structure OverlayState where
  registry : List Nat
  destroyedNative : List Nat
deriving DecidableEq, Repr

/-- The Windows native environment seen by `create_privacy_overlay`:
`GetSystemMetrics(SM_CXSCREEN/SM_CYSCREEN)` and the result of
`CreateWindowExW` (`none` models the native subsystem refusing, which
the source turns into a panic via `.expect`). -/
structure WinEnv where
  cxScreen : Int
  cyScreen : Int
  createWindowResult : Option Nat
deriving DecidableEq, Repr

/-- `create_privacy_overlay` on Windows (lib.rs lines 369-384):
requests one `(0, 0, SM_CXSCREEN, SM_CYSCREEN)` window; on native
refusal `win_privacy::create_overlay` panics through
`.expect("Failed to create overlay")` (lib.rs line 212); on success the
handle is appended to the registry and `Ok(())` is returned.  The third
component is the list of `(x, y, w, h)` native window-creation requests
issued by the call. -/
def createPrivacyOverlayWin (env : WinEnv) (st : OverlayState) :
    Outcome × OverlayState × List (Int × Int × Int × Int) :=
  match env.createWindowResult with
  | none =>
      (.panicked "Failed to create overlay", st,
       [(0, 0, env.cxScreen, env.cyScreen)])
  | some h =>
      (.ok, { st with registry := st.registry ++ [h] },
       [(0, 0, env.cxScreen, env.cyScreen)])

/-- `create_privacy_overlay` on macOS (lib.rs lines 386-400, 402):
the overlay size is the hard-coded fallback `1920 × 1080` (lib.rs lines
392-393); `newWindow` is the pointer returned by
`mac_privacy::create_overlay`; it is appended to the registry and
`Ok(())` is returned. -/
def createPrivacyOverlayMac (newWindow : Nat) (st : OverlayState) :
    Outcome × OverlayState × List (Int × Int × Int × Int) :=
  (.ok, { st with registry := st.registry ++ [newWindow] },
   [(0, 0, 1920, 1080)])

/-- `create_privacy_overlay` on any other platform: both `cfg` blocks
vanish and the function body is just `Ok(())` (lib.rs line 402) — no
native call, no state change. -/
def createPrivacyOverlayOther (st : OverlayState) :
    Outcome × OverlayState × List (Int × Int × Int × Int) :=
  (.ok, st, [])

/-- `destroy_privacy_overlay` on Windows (lib.rs lines 405-410 via
`OverlayManager::destroy_all`, lines 57-63): drains the registry and
calls `DestroyWindow` on every drained handle. -/
def destroyPrivacyOverlayWin (st : OverlayState) : Outcome × OverlayState :=
  (.ok, { registry := [], destroyedNative := st.destroyedNative ++ st.registry })

/-- `destroy_privacy_overlay` on macOS (lib.rs lines 405-410 via the
macOS `destroy_all`, lines 65-70): only `self.ns_windows.lock().unwrap()
.clear()` — the vector is emptied but no native disposal happens
(the source comment reads "For now, we'll just clear the vector"). -/
def destroyPrivacyOverlayMac (st : OverlayState) : Outcome × OverlayState :=
  (.ok, { st with registry := [] })

/-! ## Animated-overlay spinner (lib.rs lines 127-129, `wnd_proc` WM_PAINT) -/

/-- The spinner rotation angle computed on each paint:
`let angle = (now / 10) % 360;` where `now` is the current time in
milliseconds (integer division). -/
def spinnerAngle (nowMs : Nat) : Nat :=
  (nowMs / 10) % 360

/-! ## Theorems -/

/-- Claim C1: for every key_event call whose (key, code) pair resolves through
the mapping table, the action = down batch is one key-down per active modifier
in the fixed order ctrl, shift, alt followed by the resolved key's down event;
the action = up batch is the resolved key's up event followed by modifier
key-ups in the reverse order alt, shift, ctrl; and a down call plus an up call
emit exactly one primary event each plus 2 x (number of active modifiers)
modifier events in total. -/
theorem key_event_modifier_order (key code : String) (mods : Modifiers)
    (vk : Nat) (ext : Bool) (h : vk_from_keycode key code = (vk, ext)) (hvk : vk ≠ 0) :
    keyEventInputs "down" key code mods =
      ((if mods.ctrl then [pushKey VK_CONTROL false true] else []) ++
       (if mods.shift then [pushKey VK_SHIFT false false] else []) ++
       (if mods.alt then [pushKey VK_MENU false true] else [])) ++ [pushKey vk false ext] ∧
    keyEventInputs "up" key code mods =
      pushKey vk true ext ::
      ((if mods.alt then [pushKey VK_MENU true true] else []) ++
       (if mods.shift then [pushKey VK_SHIFT true false] else []) ++
       (if mods.ctrl then [pushKey VK_CONTROL true true] else [])) ∧
    (keyEventInputs "down" key code mods).length + (keyEventInputs "up" key code mods).length =
      2 + 2 * ((if mods.ctrl then 1 else 0) + (if mods.shift then 1 else 0) +
               (if mods.alt then 1 else 0)) := by
  obtain ⟨a, c, s, m⟩ := mods
  cases a <;> cases c <;> cases s <;>
    simp [keyEventInputs, h, hvk]

/-- Witness for C1: the Enter key with all three effective modifiers active. -/
theorem key_event_modifier_order_witness :
    vk_from_keycode "Enter" "Enter" = (13, false) ∧ (13 : Nat) ≠ 0 ∧
    (keyEventInputs "down" "Enter" "Enter" ⟨true, true, true, true⟩ =
      [pushKey VK_CONTROL false true, pushKey VK_SHIFT false false,
       pushKey VK_MENU false true, pushKey 13 false false] ∧
     keyEventInputs "up" "Enter" "Enter" ⟨true, true, true, true⟩ =
      [pushKey 13 true false, pushKey VK_MENU true true,
       pushKey VK_SHIFT true false, pushKey VK_CONTROL true true] ∧
     (keyEventInputs "down" "Enter" "Enter" ⟨true, true, true, true⟩).length +
       (keyEventInputs "up" "Enter" "Enter" ⟨true, true, true, true⟩).length = 2 + 2 * 3) := by
  refine ⟨by decide, by decide, ?_⟩
  have := key_event_modifier_order "Enter" "Enter" ⟨true, true, true, true⟩ 13 false
    (by decide) (by decide)
  simpa using this

/-- Counterexample for C2: mouse_click "unknown" succeeds as a left click
instead of failing with UnknownButton, and "RIGHT" (uppercase) produces a left
click while "right" produces a right click, so matching is not
case-insensitive. -/
theorem mouse_click_unknown_succeeds_as_left :
    mouseClick "unknown" 1 = (Outcome.ok, [MouseFlag.leftDown, MouseFlag.leftUp]) ∧
    (mouseClick "unknown" 1).1.isErr = false ∧
    mouseClick "RIGHT" 1 = (Outcome.ok, [MouseFlag.leftDown, MouseFlag.leftUp]) ∧
    mouseClick "right" 1 = (Outcome.ok, [MouseFlag.rightDown, MouseFlag.rightUp]) := by
  decide

/-- Claim C2 as amended: mouse_click recognizes only the exact lowercase
string "right" (right down/up pair); every other button value, including
uppercase spellings, "middle" and arbitrary strings, produces a left down/up
pair; the call never fails with UnknownButton and succeeds whenever the native
injection accepts the events. -/
theorem mouse_click_right_or_default_left (button : String) (sent : Nat) :
    mouseClick button sent =
      ((if sent = 0 then Outcome.err "SendInput failed" else Outcome.ok),
       (if button == "right" then [MouseFlag.rightDown, MouseFlag.rightUp]
        else [MouseFlag.leftDown, MouseFlag.leftUp])) := by
  unfold mouseClick mouseClickFlags
  split <;> rfl

/-- Claim C3, evaluated at the failing configuration: on macOS,
create_privacy_overlay followed by destroy_privacy_overlay leaves the registry
empty but never invokes the native destruction routine on the removed handle
(destroyedNative stays empty), so the native window outlives its registry
entry; on Windows, by contrast, the drained handle is natively destroyed. -/
theorem destroy_overlay_macos_no_native_destroy :
    ((createPrivacyOverlayMac 1 ⟨[], []⟩).2.1).registry = [1] ∧
    (destroyPrivacyOverlayMac (createPrivacyOverlayMac 1 ⟨[], []⟩).2.1).2.registry = [] ∧
    (destroyPrivacyOverlayMac (createPrivacyOverlayMac 1 ⟨[], []⟩).2.1).2.destroyedNative = [] ∧
    (destroyPrivacyOverlayWin ⟨[2], []⟩).2 = ⟨[], [2]⟩ := by
  decide

/-- Counterexample for C4: a key_event call with an unresolvable (key, code)
pair but an active ctrl modifier still emits one native event (the ctrl
key-down), refuting that no native input event at all is emitted. -/
theorem key_event_unresolved_still_emits_ctrl :
    keyEventInputs "down" "F13" "F13" ⟨false, true, false, false⟩ =
      [pushKey VK_CONTROL false true] ∧
    keyEventInputs "down" "F13" "F13" ⟨false, true, false, false⟩ ≠ [] := by
  constructor <;> decide

/-- Claim C4 as amended: when neither the physical-code table nor the
symbolic-name fallback resolves, no primary key event is emitted — the batch
consists solely of the modifier events for the active modifiers — and the
call returns success whenever the native injection accepts the submitted
events, failing with the SendInput error exactly when modifier events were
submitted and zero were accepted; when no effective modifier is active
nothing is emitted at all and the call returns success unconditionally. -/
theorem key_event_unresolved_emits_only_modifiers (action key code : String)
    (mods : Modifiers) (sent : Nat) (h : (vk_from_keycode key code).1 = 0) :
    keyEventInputs action key code mods =
      (if action == "down" then
         (if mods.ctrl then [pushKey VK_CONTROL false true] else []) ++
         (if mods.shift then [pushKey VK_SHIFT false false] else []) ++
         (if mods.alt then [pushKey VK_MENU false true] else [])
       else []) ++
      (if action == "up" then
         (if mods.alt then [pushKey VK_MENU true true] else []) ++
         (if mods.shift then [pushKey VK_SHIFT true false] else []) ++
         (if mods.ctrl then [pushKey VK_CONTROL true true] else [])
       else []) ∧
    (sent ≠ 0 → keyEventResult action key code mods sent = .ok) ∧
    (keyEventInputs action key code mods ≠ [] → sent = 0 →
      keyEventResult action key code mods sent = .err "SendInput key_event failed") ∧
    (mods.ctrl = false → mods.shift = false → mods.alt = false →
      keyEventInputs action key code mods = [] ∧
      keyEventResult action key code mods sent = .ok) := by
  refine ⟨?_, ?_, ?_, ?_⟩
  · simp [keyEventInputs, h]
  · intro hs
    simp [keyEventResult, hs]
  · intro hne hs
    simp [keyEventResult, hne, hs]
  · intro hc hs ha
    have hempty : keyEventInputs action key code mods = [] := by
      simp [keyEventInputs, h, hc, hs, ha]
    exact ⟨hempty, by simp [keyEventResult, hempty]⟩

/-- Witness for the amended C4: the unmapped F13 key with an active ctrl
modifier succeeds when the injection accepts the submitted event, and with no
active modifiers it emits nothing and succeeds even when SendInput would
accept zero events. -/
theorem key_event_unresolved_witness :
    (vk_from_keycode "F13" "F13").1 = 0 ∧ (1 : Nat) ≠ 0 ∧
    keyEventResult "down" "F13" "F13" ⟨false, true, false, false⟩ 1 = .ok ∧
    keyEventInputs "down" "F13" "F13" ⟨false, false, false, false⟩ = [] ∧
    keyEventResult "down" "F13" "F13" ⟨false, false, false, false⟩ 0 = .ok := by
  refine ⟨by decide, by decide, ?_, ?_⟩
  · exact (key_event_unresolved_emits_only_modifiers "down" "F13" "F13"
      ⟨false, true, false, false⟩ 1 (by decide)).2.1 (by decide)
  · exact (key_event_unresolved_emits_only_modifiers "down" "F13" "F13"
      ⟨false, false, false, false⟩ 0 (by decide)).2.2.2 rfl rfl rfl

/-- Counterexample for C5: on a platform with no privacy-overlay
implementation the create command returns success, not an UnsupportedPlatform
error. -/
theorem create_overlay_unsupported_returns_ok :
    (createPrivacyOverlayOther ⟨[], []⟩).1 = Outcome.ok ∧
    ((createPrivacyOverlayOther ⟨[], []⟩).1).isErr = false := by
  decide

/-- Claim C5 as amended: on a platform with no privacy-overlay implementation,
create_privacy_overlay makes no native call, leaves the registry unchanged,
and returns success (a silent no-op); it never returns an UnsupportedPlatform
error. -/
theorem create_overlay_other_noop (st : OverlayState) :
    createPrivacyOverlayOther st = (Outcome.ok, st, []) := rfl

/-- Counterexample for C6: when the native window-creation call refuses, the
Windows create command panics with the fixed expect message instead of
returning an OverlayCreationFailed error result. -/
theorem create_overlay_refusal_panics :
    (createPrivacyOverlayWin ⟨1920, 1080, none⟩ ⟨[], []⟩).1 =
      Outcome.panicked "Failed to create overlay" ∧
    ((createPrivacyOverlayWin ⟨1920, 1080, none⟩ ⟨[], []⟩).1).isErr = false := by
  decide

/-- Claim C6 as amended: when the native window-creation call refuses,
create_privacy_overlay panics (crashes) with the message "Failed to create
overlay" rather than returning an error result; on success it returns success
with no payload after appending the new handle to the registry. -/
theorem create_overlay_panic_or_append (env : WinEnv) (st : OverlayState) :
    (env.createWindowResult = none →
      createPrivacyOverlayWin env st =
        (Outcome.panicked "Failed to create overlay", st,
         [(0, 0, env.cxScreen, env.cyScreen)])) ∧
    (∀ h, env.createWindowResult = some h →
      (createPrivacyOverlayWin env st).1 = Outcome.ok ∧
      (createPrivacyOverlayWin env st).2.1.registry = st.registry ++ [h] ∧
      (createPrivacyOverlayWin env st).2.2 = [(0, 0, env.cxScreen, env.cyScreen)]) := by
  constructor
  · intro hn
    simp [createPrivacyOverlayWin, hn]
  · intro h hh
    simp [createPrivacyOverlayWin, hh]

/-- Witness for the amended C6: a successful creation appends handle 7 to an
empty registry and requests one full-display window. -/
theorem create_overlay_panic_or_append_witness :
    (createPrivacyOverlayWin ⟨1920, 1080, some 7⟩ ⟨[], []⟩).1 = Outcome.ok ∧
    (createPrivacyOverlayWin ⟨1920, 1080, some 7⟩ ⟨[], []⟩).2.1.registry = [7] ∧
    (createPrivacyOverlayWin ⟨1920, 1080, some 7⟩ ⟨[], []⟩).2.2 = [(0, 0, 1920, 1080)] :=
  (create_overlay_panic_or_append ⟨1920, 1080, some 7⟩ ⟨[], []⟩).2 7 rfl

/-- Claim C7, evaluated at the failing configuration: the macOS create command
always requests a fixed 1920 x 1080 overlay, independent of its inputs, while
the Windows command requests the actual display dimensions (here 2560 x 1440),
which differ from the fixed constant. -/
theorem overlay_size_macos_constant (newWindow : Nat) (st : OverlayState) :
    (createPrivacyOverlayMac newWindow st).2.2 = [(0, 0, 1920, 1080)] ∧
    (createPrivacyOverlayWin ⟨2560, 1440, some 1⟩ ⟨[], []⟩).2.2 = [(0, 0, 2560, 1440)] ∧
    ((0, 0, 1920, 1080) : Int × Int × Int × Int) ≠ (0, 0, 2560, 1440) :=
  ⟨rfl, rfl, by decide⟩

/-- Claim C8: on the coordinate-rescaling platform, mouse_move computes each
native coordinate as round((coordinate / display_dimension) * 65535); in
particular (0, 0) maps to (0, 0) and (max_x, max_y) = (cx, cy) maps to
(65535, 65535). -/
theorem mouse_move_rescale (x y cx cy : ℤ) (hcx : 0 < cx) (hcy : 0 < cy) :
    mouseMoveNative x y cx cy =
      (roundAwayFromZero ((x : ℚ) / (cx : ℚ) * 65535),
       roundAwayFromZero ((y : ℚ) / (cy : ℚ) * 65535)) ∧
    mouseMoveNative 0 0 cx cy = (0, 0) ∧
    mouseMoveNative cx cy cx cy = (65535, 65535) := by
  have hx : ((cx : ℚ)) ≠ 0 := Int.cast_ne_zero.mpr hcx.ne'
  have hy : ((cy : ℚ)) ≠ 0 := Int.cast_ne_zero.mpr hcy.ne'
  refine ⟨rfl, ?_, ?_⟩
  · simp [mouseMoveNative, roundAwayFromZero]
    norm_num
  · simp [mouseMoveNative, div_self hx, div_self hy, roundAwayFromZero]
    norm_num

/-- Witness for C8: a 1920 x 1080 display maps its far corner to
(65535, 65535). -/
theorem mouse_move_rescale_witness :
    (0 : ℤ) < 1920 ∧ (0 : ℤ) < 1080 ∧
    mouseMoveNative 1920 1080 1920 1080 = (65535, 65535) :=
  ⟨by norm_num, by norm_num,
   (mouse_move_rescale 0 0 1920 1080 (by norm_num) (by norm_num)).2.2⟩

/-- Claim C9: on every paint the spinner angle is (elapsed_ms / 10) mod 360
with integer division, so two paints 500 ms apart differ by 50 degrees
modulo 360. -/
theorem spinner_angle_formula (t : Nat) :
    spinnerAngle t = (t / 10) % 360 ∧
    spinnerAngle (t + 500) = (spinnerAngle t + 50) % 360 := by
  constructor
  · rfl
  · simp only [spinnerAngle]
    omega

/-- Claim C10: the meta modifier flag has no effect on key_event — for every
action, key, code, effective-modifier combination and SendInput result, both
the emitted batch and the command outcome are identical for any two values of
the meta flag. -/
theorem key_event_meta_ignored (action key code : String)
    (alt ctrl shift meta m2 : Bool) (sent : Nat) :
    keyEventInputs action key code ⟨alt, ctrl, shift, meta⟩ =
      keyEventInputs action key code ⟨alt, ctrl, shift, m2⟩ ∧
    keyEventResult action key code ⟨alt, ctrl, shift, meta⟩ sent =
      keyEventResult action key code ⟨alt, ctrl, shift, m2⟩ sent :=
  ⟨rfl, rfl⟩

end MyTauriApp
